import Mathlib

/- Shallow embedding of the ChipChat dispatch engine (lib/chipchat.js).
   JavaScript objects are modelled as association lists from field names to
   scalar values; an undefined value is modelled with Option. -/

namespace ChipChat

/- JavaScript scalar values (string / number / boolean). -/
inductive JVal
| str (s : String)
| num (n : Int)
| bool (b : Bool)
deriving DecidableEq, Repr

/- A plain JavaScript object with scalar-valued fields. -/
abbrev Obj := List (String × JVal)

/- Property lookup on a plain object; none models undefined. -/
def getField (o : Obj) (k : String) : Option JVal :=
  (o.find? (fun kv => kv.1 == k)).map (fun kv => kv.2)

/- JavaScript truthiness of a possibly-undefined scalar value. -/
def truthy : Option JVal → Bool
| none => false
| some (JVal.str s) => !(s == "")
| some (JVal.num n) => !(n == 0)
| some (JVal.bool b) => b

/- String coercion applied when a RegExp is tested against a value
   (RegExp.prototype.test stringifies its argument). -/
def jsToString : Option JVal → String
| none => "undefined"
| some (JVal.str s) => s
| some (JVal.num n) => toString n
| some (JVal.bool b) => cond b "true" "false"

mutual

/- An expected value in a conditionals map: scalar, array of expectations, or
   regular expression. A RegExp is modelled by its test function on strings.
   Arrays are a dedicated list type so the recursion below is structural. -/
inductive MTest
| scalar (v : JVal)
| arr (ts : MTestList)
| regex (p : String → Bool)

inductive MTestList
| nil
| cons (t : MTest) (ts : MTestList)

end

mutual

/- matcher(value, test), lib/chipchat.js lines 61-75: exact equality for
   scalars, recursion over elements for arrays, test() for RegExps. -/
def matcher (value : Option JVal) : MTest → Bool
| MTest.scalar v => value == some v
| MTest.arr ts => matcherAny value ts
| MTest.regex p => p (jsToString value)

/- The array case is a reduce whose result is true iff some element matches. -/
def matcherAny (value : Option JVal) : MTestList → Bool
| MTestList.nil => false
| MTestList.cons t ts => if matcher value t then true else matcherAny value ts

end

/- Character-list prefix test. String.startsWith is modelled on the character
   list so that closed terms reduce inside the kernel. -/
def charsPrefix : List Char → List Char → Bool
| [], _ => true
| _ :: _, [] => false
| p :: ps, c :: cs => p == c && charsPrefix ps cs

/- s.startsWith p. -/
def strStartsWith (s p : String) : Bool := charsPrefix p.data s.data

/- Dropping one leading character, used for key.replace of a leading at-sign. -/
def strDropOne (s : String) : String :=
  match s.data with
  | [] => s
  | _ :: rest => String.mk rest

/- The context object passed to conditional matching: top-level fields plus an
   optional meta object. -/
structure Ctx where
  fields : Obj
  meta : Option Obj

/- One key of match(c, m, conditionals), lib/chipchat.js lines 79-89: the
   if-chain over the three lookup locations. -/
def matchKey (c : Ctx) (m : Obj) (key : String) (test : MTest) : Bool :=
  if truthy (getField m key) && matcher (getField m key) test then true
  else if strStartsWith key "@" && matcher (getField c.fields (strDropOne key)) test then true
  else if (match c.meta with
           | some mt => matcher (getField mt key) test
           | none => false) then true
  else false

/- match(c, m, conditionals), lib/chipchat.js lines 77-97: a left fold with a
   short-circuiting accumulator over the keys; true for an empty map. The JS
   function is named match, a reserved word in Lean. -/
def matchConds (c : Ctx) (m : Obj) (conditionals : List (String × MTest)) : Bool :=
  if !(conditionals.length == 0) then
    conditionals.foldl (fun acc kv => if acc then matchKey c m kv.1 kv.2 else false) true
  else true

/- Declarative per-key semantics: a key passes iff any of the three lookup
   locations matches; a defined but non-matching value at an earlier location
   does not stop a later location from matching. -/
def matchKeyAnyLocation (c : Ctx) (m : Obj) (key : String) (test : MTest) : Bool :=
  (truthy (getField m key) && matcher (getField m key) test)
  || (strStartsWith key "@" && matcher (getField c.fields (strDropOne key)) test)
  || (match c.meta with
      | some mt => matcher (getField mt key) test
      | none => false)

theorem matchKey_eq_anyLocation (c : Ctx) (m : Obj) (key : String) (test : MTest) :
    matchKey c m key test = matchKeyAnyLocation c m key test := by
  unfold matchKey matchKeyAnyLocation
  cases h1 : truthy (getField m key) && matcher (getField m key) test <;>
    cases h2 : strStartsWith key "@" && matcher (getField c.fields (strDropOne key)) test <;>
      cases h3 : (match c.meta with
                  | some mt => matcher (getField mt key) test
                  | none => false) <;>
        simp [h1, h2, h3]

theorem foldl_and_all {α : Type} (f : α → Bool) (l : List α) (acc : Bool) :
    l.foldl (fun a x => if a then f x else false) acc = (acc && l.all f) := by
  induction l generalizing acc with
  | nil => simp
  | cons x xs ih =>
    rw [List.foldl_cons, ih]
    cases acc <;> simp [List.all_cons]

/-- C3 (amended): the Conditional Matcher accepts iff every key in the
conditionals map passes, where a key passes iff any of its three lookup
locations matches: (message value truthy and matching), (key prefixed with
the at-sign and the stripped key's context value matching), or (context meta
present and its value matching). Contrary to the original claim, the first
location with a defined value is not the only one tested: a defined but
non-matching earlier value does not prevent a later location from matching. -/
theorem spec_C3_amended (c : Ctx) (m : Obj) (conds : List (String × MTest)) :
    matchConds c m conds = conds.all (fun kv => matchKeyAnyLocation c m kv.1 kv.2) := by
  unfold matchConds
  cases conds with
  | nil => simp
  | cons kv kvs =>
    have h : (!((kv :: kvs).length == 0)) = true := by simp
    rw [h]
    simp only [if_true, foldl_and_all (fun kv => matchKey c m kv.1 kv.2) (kv :: kvs) true,
      Bool.true_and]
    simp [matchKey_eq_anyLocation]

def cC3 : Ctx := { fields := [], meta := some [("foo", JVal.str "b")] }

def mC3 : Obj := [("foo", JVal.str "a")]

def condsC3 : List (String × MTest) := [("foo", MTest.scalar (JVal.str "b"))]

/-- C3 counterexample: with conditionals requiring foo = "b", a message whose
foo field is the defined value "a" (which fails the test), and a context whose
meta.foo is "b", the code still matches: the defined-but-failing value on the
message is bypassed in favour of the later meta lookup, refuting the claim
that the first lookup location yielding a defined value is the one tested. -/
theorem spec_C3_cex :
    matchConds cC3 mC3 condsC3 = true
    ∧ getField mC3 "foo" = some (JVal.str "a")
    ∧ matcher (getField mC3 "foo") (MTest.scalar (JVal.str "b")) = false :=
  ⟨by decide, by decide, by decide⟩

/- Generic association-list lookup, modelling property access on the cache
   objects keyed by id strings. -/
def assocGet {α : Type} (m : List (String × α)) (k : String) : Option α :=
  (m.find? (fun kv => kv.1 == k)).map (fun kv => kv.2)

/- Property assignment on a string-keyed cache object: replace when the key
   exists, append otherwise (JavaScript objects keep insertion order). -/
def assocSet {α : Type} (m : List (String × α)) (k : String) (v : α) : List (String × α) :=
  if m.any (fun kv => kv.1 == k) then
    m.map (fun kv => if kv.1 == k then (k, v) else kv)
  else m ++ [(k, v)]

/- The authenticated identity derived from the token, constructor lines
   176-190; the token field _id is renamed uid. -/
structure DecodedToken where
  uid : String
  organization : String
  iat : Nat
  exp : Nat
deriving DecidableEq, Repr

structure Auth where
  user : String
  organization : String
  iat : Nat
  exp : Nat
deriving DecidableEq, Repr

/- this.auth is set only when a token was given and jwt.decode recognised it;
   decoding is an external collaborator, passed in as a function. -/
def mkAuth (token : Option String) (decode : String → Option DecodedToken) : Option Auth :=
  match token with
  | none => none
  | some t =>
    match decode t with
    | some d => some { user := d.uid, organization := d.organization, iat := d.iat, exp := d.exp }
    | none => none

/- A cached organization. -/
structure Org where
  id : String
deriving DecidableEq, Repr

/- A cached conversation snapshot: id, the embedded organization reference (an
   id string), the optional metadata map, and its other scalar fields. -/
structure Conversation where
  id : String
  organization : String
  meta : Option Obj
  fields : Obj
deriving DecidableEq, Repr

/- message.meta; users and targetUser may each be undefined. -/
structure MsgMeta where
  users : Option (List String)
  targetUser : Option String
deriving DecidableEq, Repr

/- An inbound message. An undefined or empty text or role is modelled as the
   empty string (both are falsy in the source's checks); mtype models
   message.type and conversation models the conversation id reference. -/
structure Message where
  mtype : String
  text : String
  role : String
  conversation : String
  user : String
  meta : Option MsgMeta
deriving DecidableEq, Repr

/- A reply-listener callback: a direct function (opaque, identified by a
   number) or a name resolved through the registered-callback registry. -/
inductive CbRef
| fn (id : Nat)
| named (name : String)
deriving DecidableEq, Repr

/- A ReplyListener record, onReply lines 370-380. -/
structure ReplyListener where
  id : Nat
  chatId : String
  messageId : String
  callback : CbRef
deriving DecidableEq, Repr

/- A text-trigger pattern: a RegExp (modelled by its match function: exec
   returns a truthy result iff the function does) or a literal string compared
   case-insensitively. -/
inductive Pattern
| regex (p : String → Bool)
| lit (s : String)

/- A Text Trigger Registry entry; the callback is opaque and identified by
   tid, recorded in the trace when it is invoked. -/
structure TextTrigger where
  tid : Nat
  pattern : Pattern

/- The mutable bot state relevant to dispatch. Handler callbacks are opaque in
   this model: invoking one is recorded as a trace event and does not itself
   mutate the state. -/
structure BotState where
  auth : Option Auth
  preloadOrganizations : Bool
  onlyFirstMatch : Bool
  conversations : List (String × Conversation)
  organizations : List (String × Org)
  registeredCallbacks : List (String × Nat)
  textRegexpCallbacks : List TextTrigger
  replyListenerId : Nat
  replyListeners : List ReplyListener

/- Observable actions of a dispatch run, in order: a text-trigger callback
   invoked with the message, a reply-listener callback (resolved to function
   cb) invoked with the message, an event emission, an error emission. -/
inductive Ev
| triggerFired (tid : Nat) (m : Message)
| replyFired (lid : Nat) (cb : Nat) (m : Message)
| emit (name : String)
| errorEmitted (msg : String)
deriving DecidableEq, Repr

/- onText, lines 324-343: push one entry per trigger. -/
def onText (st : BotState) (t : TextTrigger) : BotState :=
  { st with textRegexpCallbacks := st.textRegexpCallbacks ++ [t] }

/- onReply, lines 370-380: push a listener under the next counter value. -/
def onReply (st : BotState) (chatId : String) (messageId : String) (callback : CbRef) :
    Nat × BotState :=
  let i := st.replyListenerId + 1
  (i, { st with
          replyListenerId := i,
          replyListeners := st.replyListeners ++
            [{ id := i, chatId := chatId, messageId := messageId, callback := callback }] })

/- removeReplyListener, lines 389-398: splice out the first listener with the
   given id, if any. -/
def removeReplyListener (st : BotState) (lid : Nat) : Option ReplyListener × BotState :=
  match st.replyListeners.findIdx? (fun l => l.id == lid) with
  | none => (none, st)
  | some i => (st.replyListeners[i]?, { st with replyListeners := st.replyListeners.eraseIdx i })

/- The organization field of the Actions Context, _getActionsObject lines
   627-629. The source indexes the organization cache with the cached
   conversation value itself; a JavaScript object used as a property key is
   coerced to the string "[object Object]". -/
inductive JOrg
| cached (o : Org)
| ref (s : String)
deriving DecidableEq, Repr

def objectPropertyKey (_ : Conversation) : String := "[object Object]"

def orgFieldOf (st : BotState) (conv : Conversation) : JOrg :=
  match assocGet st.organizations (objectPropertyKey conv) with
  | some o => JOrg.cached o
  | none => JOrg.ref conv.organization

/-- Modelled from the spec: the Actions Context Builder resolves the
organization from the organization cache (keyed by the conversation's
organization reference), falling back to the conversation's own embedded
reference when it is not cached. -/
def orgFieldSpec (st : BotState) (conv : Conversation) : JOrg :=
  match assocGet st.organizations conv.organization with
  | some o => JOrg.cached o
  | none => JOrg.ref conv.organization

/- Top-level property read on a cached conversation, used by the get context
   helper: id and organization are real fields, everything else lives in the
   fields map. -/
def convProp (conv : Conversation) (k : String) : Option JVal :=
  if k == "id" then some (JVal.str conv.id)
  else if k == "organization" then some (JVal.str conv.organization)
  else getField conv.fields k

/- Metadata lookup (conversation.meta or empty object, indexed at key). -/
def metaGetOf (conv : Conversation) (key : String) : Option JVal :=
  match conv.meta with
  | some mt => getField mt key
  | none => none

/- The get helper of the Actions Context, lines 646-652: a key prefixed with
   the at-sign reads the conversation's own field when defined, otherwise the
   metadata map is read at the unstripped key. -/
def ctxGet (conv : Conversation) (key : String) : Option JVal :=
  if strStartsWith key "@" then
    match convProp conv (strDropOne key) with
    | some v => some v
    | none => metaGetOf conv key
  else metaGetOf conv key

/- The Actions Context seen by this model: either the empty object returned
   for an unknown conversation, or the merged object for a cached one (the
   bound command helpers are opaque and not represented). -/
inductive ActionsCtx
| empty
| full (conv : Conversation) (organization : JOrg)
deriving DecidableEq, Repr

/- _getActionsObject, lines 591-671: for a falsy or unknown conversation id,
   emit an error and return the empty object; otherwise build the merged
   context. The returned event list holds the emissions performed. -/
def getActionsObject (st : BotState) (convId : String) : List Ev × ActionsCtx :=
  if convId == "" then ([Ev.errorEmitted ("missing conv " ++ convId)], ActionsCtx.empty)
  else
    match assocGet st.conversations convId with
    | none => ([Ev.errorEmitted ("missing conv " ++ convId)], ActionsCtx.empty)
    | some conv => ([], ActionsCtx.full conv (orgFieldOf st conv))

/- Case-insensitive literal comparison of trigger strings, via toUpperCase. -/
def jsToUpper (s : String) : String := String.mk (s.data.map Char.toUpper)

/- One trigger test, _handleMessage lines 498-500: exec for a RegExp, else
   exact case-insensitive string equality. -/
def patternMatches (p : Pattern) (text : String) : Bool :=
  match p with
  | Pattern.regex f => f text
  | Pattern.lit s => jsToUpper text == jsToUpper s

/- The some-loop over _textRegexpCallbacks, lines 496-514: each structurally
   matching trigger fires; iteration stops after the first firing trigger only
   when onlyFirstMatch is set. -/
def runTriggers (onlyFirstMatch : Bool) (message : Message) : List TextTrigger → List Ev
| [] => []
| t :: ts =>
  if patternMatches t.pattern message.text then
    Ev.triggerFired t.tid message ::
      (if onlyFirstMatch then [] else runTriggers onlyFirstMatch message ts)
  else runTriggers onlyFirstMatch message ts

/- Resolution of a listener callback, lines 527-530: a string names an entry
   of the registered-callback registry; an unregistered name resolves to
   undefined, and calling it throws. -/
def resolveCb (regs : List (String × Nat)) : CbRef → Option Nat
| CbRef.fn i => some i
| CbRef.named n => assocGet regs n

/- The forEach over _replyListeners, lines 520-535: every listener whose
   chatId equals the message's conversation fires; the loop removes nothing.
   The Bool is hasReplied; an error result models a thrown type error from
   calling an unresolvable named callback, carrying the events so far. -/
def runReplyListeners (regs : List (String × Nat)) (message : Message) :
    List ReplyListener → Except (List Ev) (List Ev × Bool)
| [] => Except.ok ([], false)
| l :: ls =>
  if l.chatId == message.conversation then
    match resolveCb regs l.callback with
    | none => Except.error []
    | some cb =>
      match runReplyListeners regs message ls with
      | Except.error evs => Except.error (Ev.replyFired l.id cb message :: evs)
      | Except.ok (evs, _) => Except.ok (Ev.replyFired l.id cb message :: evs, true)
  else runReplyListeners regs message ls

/- The reply events the loop produces when every matching callback resolves:
   one firing per listener registered for the conversation, in order. -/
def replyFiredEvents (regs : List (String × Nat)) (message : Message)
    (ls : List ReplyListener) : List Ev :=
  (ls.filter (fun l => l.chatId == message.conversation)).map
    (fun l => Ev.replyFired l.id ((resolveCb regs l.callback).getD 0) message)

/- The guard of the text-trigger and reply block, lines 491-495: not the muted
   channel.notify type, a chat or postback message, non-empty text, and a
   contact or agent role. -/
def qualifies (ty : String) (message : Message) : Bool :=
  !(ty == "channel.notify")
  && (message.mtype == "chat" || message.mtype == "postback")
  && !(message.text == "")
  && (message.role == "contact" || message.role == "agent")

/- The /assign notify emission, line 542: reading message.meta.users throws a
   type error when meta or users is undefined, as does this.auth.user when no
   token was decoded; none models the throw. -/
def assignNotify (auth : Option Auth) (message : Message) : Option (List Ev) :=
  if message.mtype == "command" && message.text == "/assign" then
    match message.meta with
    | none => none
    | some meta =>
      match meta.users with
      | none => none
      | some users =>
        match auth with
        | none => none
        | some a => some (if users.contains a.user then [Ev.emit "notify"] else [])
  else some []

/- The bot-command notify emission, lines 546-549. -/
def botcmdNotify (message : Message) : List Ev :=
  if message.mtype == "command" && strStartsWith message.text ">" then [Ev.emit "notify"]
  else []

/- The mention notify emission, lines 550-554: message.meta is checked for
   truthiness first, but this.auth.user is dereferenced unguarded. -/
def mentionNotify (auth : Option Auth) (message : Message) : Option (List Ev) :=
  if message.mtype == "mention" then
    match message.meta with
    | none => some []
    | some meta =>
      match auth with
      | none => none
      | some a =>
        some (if meta.targetUser == some a.user then [Ev.emit "notify"] else [])
  else some []

/- The type-and-role emission, lines 555-558. -/
def roleEmit (ty : String) (message : Message) : List Ev :=
  if strStartsWith ty "message" && !(message.role == "") then
    [Ev.emit (ty ++ "." ++ message.role)]
  else []

/- The generic-emission block guarded by hasReplied, lines 538-559: the events
   emitted, or (on the error side) the events emitted before a throw. -/
def emitPhase (auth : Option Auth) (ty : String) (message : Message) :
    Except (List Ev) (List Ev) :=
  let base := [Ev.emit "message", Ev.emit ty]
  match assignNotify auth message with
  | none => Except.error base
  | some a =>
    match mentionNotify auth message with
    | none => Except.error (base ++ a ++ botcmdNotify message)
    | some m => Except.ok (base ++ a ++ botcmdNotify message ++ m ++ roleEmit ty message)

/- Outcome of a _handleMessage run: normal completion with its trace and the
   state afterwards, or an uncaught throw with the trace up to that point. -/
inductive HMResult
| ok (trace : List Ev) (st : BotState)
| crash (trace : List Ev)

/- The qualifying-message half of _handleMessage, lines 491-559, after the
   trigger loop has produced trigEvs: the questionAsked read (line 516) throws
   when the context is the empty object (no get member) or when this.auth is
   undefined; the reply loop then runs only under a truthy awaiting-answer
   marker, and the generic emissions only when no reply listener fired. -/
def handleQualified (st : BotState) (ty : String) (message : Message)
    (evs0 : List Ev) (ctx : ActionsCtx) (trigEvs : List Ev) : HMResult :=
  match ctx with
  | ActionsCtx.empty => HMResult.crash (evs0 ++ trigEvs)
  | ActionsCtx.full conv _ =>
    match st.auth with
    | none => HMResult.crash (evs0 ++ trigEvs)
    | some a =>
      match (if truthy (ctxGet conv ("_asked" ++ a.user))
             then runReplyListeners st.registeredCallbacks message st.replyListeners
             else Except.ok ([], false)) with
      | Except.error revs => HMResult.crash (evs0 ++ trigEvs ++ revs)
      | Except.ok (revs, hasReplied) =>
        if hasReplied then HMResult.ok (evs0 ++ trigEvs ++ revs) st
        else
          match emitPhase st.auth ty message with
          | Except.error evs => HMResult.crash (evs0 ++ trigEvs ++ revs ++ evs)
          | Except.ok evs => HMResult.ok (evs0 ++ trigEvs ++ revs ++ evs) st

/- _handleMessage, lines 486-560. The result records the observable actions in
   order and the bot state afterwards; crash models an uncaught type error,
   with the actions that already happened. The body itself never alters the
   state: listener removal happens only when a handler calls
   removeReplyListener itself. -/
def handleMessage (st : BotState) (ty : String) (message : Message) : HMResult :=
  let p := getActionsObject st message.conversation
  if qualifies ty message then
    handleQualified st ty message p.1 p.2
      (runTriggers st.onlyFirstMatch message st.textRegexpCallbacks)
  else
    match emitPhase st.auth ty message with
    | Except.error evs => HMResult.crash (p.1 ++ evs)
    | Except.ok evs => HMResult.ok (p.1 ++ evs) st

/- A webhook payload: an optional event string (the empty string modelling a
   present-but-falsy value), optional data with the conversation snapshot and
   message, and the truthiness of the activity marker. -/
structure PayloadData where
  conversation : Option Conversation
  message : Option Message
deriving DecidableEq, Repr

structure Payload where
  event : Option String
  data : Option PayloadData
  activity : Bool
deriving DecidableEq, Repr

/- Outcome of an ingest call: the error emissions, both caches afterwards, and
   the _handleEvent invocations (type, payload) it performed. -/
structure IngestResult where
  trace : List Ev
  conversations : List (String × Conversation)
  organizations : List (String × Org)
  dispatched : List (String × Payload)
deriving DecidableEq, Repr

/- ingest after signature verification, lines 413-458. fetchOrg is the
   resolution of the asynchronous organizations.get collaborator call; the
   deferred _handleEvent continuation is folded into the sequential outcome. -/
def ingestValidated (st : BotState) (fetchOrg : Except String Org) (payload : Payload) :
    IngestResult :=
  let unchanged : List Ev → List (String × Payload) → IngestResult := fun tr dis =>
    { trace := tr, conversations := st.conversations,
      organizations := st.organizations, dispatched := dis }
  match payload.event with
  | none => unchanged [Ev.errorEmitted "Invalid payload, missing event"] []
  | some ev =>
    if ev == "" then unchanged [Ev.errorEmitted "Invalid payload, missing event"] []
    else if strStartsWith ev "message" then
      match payload.data with
      | none => unchanged [Ev.errorEmitted "Invalid payload, missing conversation"] []
      | some d =>
        match d.conversation with
        | none => unchanged [Ev.errorEmitted "Invalid payload, missing conversation"] []
        | some conv =>
          if conv.id == "" then
            unchanged [Ev.errorEmitted "Invalid payload, missing conversation"] []
          else
            let convs := assocSet st.conversations conv.id conv
            if (assocGet st.organizations conv.organization).isNone
                && st.preloadOrganizations then
              match fetchOrg with
              | Except.ok org =>
                { trace := [], conversations := convs,
                  organizations := assocSet st.organizations org.id org,
                  dispatched := [(ev, payload)] }
              | Except.error e =>
                { trace := [Ev.errorEmitted
                    ("Could not load organization " ++ conv.organization ++ ": " ++ e)],
                  conversations := convs, organizations := st.organizations,
                  dispatched := [] }
            else
              { trace := [], conversations := convs,
                organizations := st.organizations, dispatched := [(ev, payload)] }
    else if payload.activity then unchanged [] [(ev, payload)]
    else unchanged [] []

/- ingest, lines 405-459. getSig models getSignature(JSON.stringify(payload),
   this.secret) from ./utils, an external collaborator not among the sources,
   passed in as a function of the payload. -/
def ingest (st : BotState) (fetchOrg : Except String Org) (getSig : Payload → String)
    (payload : Payload) (signature : Option String) : IngestResult :=
  match signature with
  | some sig =>
    if !(getSig payload == sig) then
      { trace := [Ev.errorEmitted "Message integrity check failed"],
        conversations := st.conversations, organizations := st.organizations,
        dispatched := [] }
    else ingestValidated st fetchOrg payload
  | none => ingestValidated st fetchOrg payload

/- Outcome of one receive-middleware step. -/
inductive MWOutcome
| errorEmit (msg : String)
| aborted
| next
| crash
deriving DecidableEq, Repr

/- ignoreSelfMiddleware, lines 22-37: for a message event the step reads
   payload.data.message.user and bot.auth.user; either dereference throws when
   the object is undefined, modelled as crash. -/
def ignoreSelfMiddleware (bot : BotState) (payload : Payload) : MWOutcome :=
  match payload.event with
  | none => MWOutcome.errorEmit "Invalid payload"
  | some ev =>
    if ev == "" then MWOutcome.errorEmit "Invalid payload"
    else if strStartsWith ev "message" then
      match payload.data with
      | none => MWOutcome.crash
      | some d =>
        match d.message with
        | none => MWOutcome.crash
        | some msg =>
          match bot.auth with
          | none => MWOutcome.crash
          | some a => if msg.user == a.user then MWOutcome.aborted else MWOutcome.next
    else MWOutcome.next

theorem getActionsObject_found (st : BotState) (convId : String) (conv : Conversation)
    (hne : (convId == "") = false) (hcv : assocGet st.conversations convId = some conv) :
    getActionsObject st convId = ([], ActionsCtx.full conv (orgFieldOf st conv)) := by
  simp [getActionsObject, hne, hcv]

theorem getActionsObject_missing (st : BotState) (convId : String)
    (hcv : assocGet st.conversations convId = none) :
    getActionsObject st convId =
      ([Ev.errorEmitted ("missing conv " ++ convId)], ActionsCtx.empty) := by
  unfold getActionsObject
  cases h : (convId == "") with
  | true => simp [h]
  | false => simp [h, hcv]

theorem runReplyListeners_resolved (regs : List (String × Nat)) (message : Message)
    (ls : List ReplyListener)
    (h : (ls.all fun l => !(l.chatId == message.conversation)
          || (resolveCb regs l.callback).isSome) = true) :
    runReplyListeners regs message ls =
      Except.ok (replyFiredEvents regs message ls,
        ls.any (fun l => l.chatId == message.conversation)) := by
  induction ls with
  | nil => simp [runReplyListeners, replyFiredEvents]
  | cons l ls ih =>
    simp only [List.all_cons, Bool.and_eq_true] at h
    obtain ⟨h1, h2⟩ := h
    unfold runReplyListeners
    cases hc : (l.chatId == message.conversation) with
    | false =>
      rw [ih h2]
      simp [replyFiredEvents, hc]
    | true =>
      rw [hc] at h1
      simp only [Bool.not_true, Bool.false_or] at h1
      obtain ⟨cb, hcb⟩ := Option.isSome_iff_exists.mp h1
      rw [ih h2, hcb]
      simp [replyFiredEvents, hc, hcb]

theorem runTriggers_no_emit (b : Bool) (message : Message) (ls : List TextTrigger)
    (name : String) : Ev.emit name ∉ runTriggers b message ls := by
  induction ls with
  | nil => simp [runTriggers]
  | cons t ts ih =>
    unfold runTriggers
    cases hp : patternMatches t.pattern message.text <;> cases b <;> simp_all

theorem replyFiredEvents_no_emit (regs : List (String × Nat)) (message : Message)
    (ls : List ReplyListener) (name : String) :
    Ev.emit name ∉ replyFiredEvents regs message ls := by
  simp [replyFiredEvents]

theorem emitPhase_ok_head (auth : Option Auth) (ty : String) (message : Message)
    (emits : List Ev) (h : emitPhase auth ty message = Except.ok emits) :
    ∃ rest, emits = Ev.emit "message" :: Ev.emit ty :: rest := by
  unfold emitPhase at h
  cases ha : assignNotify auth message with
  | none => rw [ha] at h; exact absurd h (by simp)
  | some a =>
    rw [ha] at h
    cases hm : mentionNotify auth message with
    | none => rw [hm] at h; exact absurd h (by simp)
    | some m =>
      rw [hm] at h
      simp only [Except.ok.injEq] at h
      exact ⟨a ++ botcmdNotify message ++ m ++ roleEmit ty message, by
        rw [← h]; simp⟩

theorem handleMessage_reply_fires (st : BotState) (ty : String) (message : Message)
    (conv : Conversation) (a : Auth)
    (hq : qualifies ty message = true)
    (hne : (message.conversation == "") = false)
    (hcv : assocGet st.conversations message.conversation = some conv)
    (ha : st.auth = some a)
    (hmark : truthy (ctxGet conv ("_asked" ++ a.user)) = true)
    (hres : (st.replyListeners.all fun l => !(l.chatId == message.conversation)
        || (resolveCb st.registeredCallbacks l.callback).isSome) = true)
    (hsome : (st.replyListeners.any fun l => l.chatId == message.conversation) = true) :
    handleMessage st ty message =
      HMResult.ok (runTriggers st.onlyFirstMatch message st.textRegexpCallbacks
        ++ replyFiredEvents st.registeredCallbacks message st.replyListeners) st := by
  simp only [handleMessage, getActionsObject_found st message.conversation conv hne hcv,
    hq, handleQualified, ha, hmark,
    runReplyListeners_resolved st.registeredCallbacks message st.replyListeners hres, hsome]
  simp

theorem handleMessage_no_reply (st : BotState) (ty : String) (message : Message)
    (conv : Conversation) (a : Auth) (emits : List Ev)
    (hq : qualifies ty message = true)
    (hne : (message.conversation == "") = false)
    (hcv : assocGet st.conversations message.conversation = some conv)
    (ha : st.auth = some a)
    (hmark : truthy (ctxGet conv ("_asked" ++ a.user)) = false)
    (hemit : emitPhase st.auth ty message = Except.ok emits) :
    handleMessage st ty message =
      HMResult.ok (runTriggers st.onlyFirstMatch message st.textRegexpCallbacks ++ emits)
        st := by
  rw [ha] at hemit
  simp only [handleMessage, getActionsObject_found st message.conversation conv hne hcv,
    hq, handleQualified, ha, hmark, hemit]
  simp

theorem handleMessage_not_qualifying (st : BotState) (ty : String) (message : Message)
    (emits : List Ev)
    (hq : qualifies ty message = false)
    (hemit : emitPhase st.auth ty message = Except.ok emits) :
    handleMessage st ty message =
      HMResult.ok ((getActionsObject st message.conversation).1 ++ emits) st := by
  simp only [handleMessage, hq, hemit]
  simp

theorem handleMessage_unknown_conv_crash (st : BotState) (ty : String) (message : Message)
    (hq : qualifies ty message = true)
    (hcv : assocGet st.conversations message.conversation = none) :
    handleMessage st ty message =
      HMResult.crash (Ev.errorEmitted ("missing conv " ++ message.conversation) ::
        runTriggers st.onlyFirstMatch message st.textRegexpCallbacks) := by
  simp only [handleMessage, getActionsObject_missing st message.conversation hcv, hq,
    handleQualified]
  simp

theorem handleMessage_no_auth_crash (st : BotState) (ty : String) (message : Message)
    (conv : Conversation)
    (hq : qualifies ty message = true)
    (hne : (message.conversation == "") = false)
    (hcv : assocGet st.conversations message.conversation = some conv)
    (ha : st.auth = none) :
    handleMessage st ty message =
      HMResult.crash (runTriggers st.onlyFirstMatch message st.textRegexpCallbacks) := by
  simp only [handleMessage, getActionsObject_found st message.conversation conv hne hcv,
    hq, handleQualified, ha]
  simp

def convC1 : Conversation := { id := "c1", organization := "o1", meta := some [], fields := [] }

def msgC1 : Message :=
  { mtype := "chat", text := "hi", role := "contact", conversation := "c1",
    user := "u1", meta := none }

def stC1 : BotState :=
  { auth := some { user := "ubot", organization := "obot", iat := 0, exp := 0 },
    preloadOrganizations := false, onlyFirstMatch := false,
    conversations := [("c1", convC1)], organizations := [], registeredCallbacks := [],
    textRegexpCallbacks := [{ tid := 1, pattern := Pattern.lit "hi" }],
    replyListenerId := 0, replyListeners := [] }

/-- C1 counterexample: a text trigger fires for the message (first trace event),
yet the generic message event, the typed event and the type-and-role event are
still emitted for that same message: a firing Text Trigger does not suppress
generic emission, refuting the claim for the Text Trigger half. -/
theorem spec_C1_cex :
    handleMessage stC1 "message.create.contact.chat" msgC1 =
      HMResult.ok [Ev.triggerFired 1 msgC1, Ev.emit "message",
        Ev.emit "message.create.contact.chat",
        Ev.emit "message.create.contact.chat.contact"] stC1 := rfl

/-- C1 (amended): only a Reply Correlator handler firing suppresses the generic
emissions: when the awaiting-answer marker is set and a listener for the
conversation fires, no emit at all happens for the message; when the marker is
not set, the generic emissions happen regardless of how many text triggers
fired (a trigger only marks the context captured). -/
theorem spec_C1_amended (st : BotState) (ty : String) (message : Message)
    (conv : Conversation) (a : Auth)
    (hq : qualifies ty message = true)
    (hne : (message.conversation == "") = false)
    (hcv : assocGet st.conversations message.conversation = some conv)
    (ha : st.auth = some a) :
    ((truthy (ctxGet conv ("_asked" ++ a.user)) = true) →
      ((st.replyListeners.all fun l => !(l.chatId == message.conversation)
          || (resolveCb st.registeredCallbacks l.callback).isSome) = true) →
      ((st.replyListeners.any fun l => l.chatId == message.conversation) = true) →
      ∃ tr, handleMessage st ty message = HMResult.ok tr st ∧ ∀ name, Ev.emit name ∉ tr)
    ∧ ((truthy (ctxGet conv ("_asked" ++ a.user)) = false) →
      ∀ emits, emitPhase st.auth ty message = Except.ok emits →
        handleMessage st ty message =
          HMResult.ok
            (runTriggers st.onlyFirstMatch message st.textRegexpCallbacks ++ emits) st) := by
  constructor
  · intro hmark hres hsome
    refine ⟨_, handleMessage_reply_fires st ty message conv a hq hne hcv ha hmark hres hsome,
      ?_⟩
    intro name hmem
    rcases List.mem_append.mp hmem with h | h
    · exact runTriggers_no_emit _ _ _ _ h
    · exact replyFiredEvents_no_emit _ _ _ _ h
  · intro hmark emits hemit
    exact handleMessage_no_reply st ty message conv a emits hq hne hcv ha hmark hemit

/-- C1 witness: the amended theorem applied to a concrete state with one firing
trigger and no awaiting-answer marker: the trigger events are followed by the
generic emissions. -/
theorem spec_C1_witness :
    qualifies "message.create.contact.chat" msgC1 = true
    ∧ truthy (ctxGet convC1 ("_asked" ++ "ubot")) = false
    ∧ handleMessage stC1 "message.create.contact.chat" msgC1 =
        HMResult.ok (runTriggers stC1.onlyFirstMatch msgC1 stC1.textRegexpCallbacks ++
          [Ev.emit "message", Ev.emit "message.create.contact.chat",
           Ev.emit "message.create.contact.chat.contact"]) stC1 :=
  ⟨by decide, by decide,
    (spec_C1_amended stC1 "message.create.contact.chat" msgC1 convC1
        { user := "ubot", organization := "obot", iat := 0, exp := 0 }
        (by decide) (by decide) (by decide) rfl).2 (by decide) _ rfl⟩

def convC2 : Conversation :=
  { id := "c2", organization := "o2", meta := some [("_askedubot", JVal.str "m1")],
    fields := [] }

def msgC2 : Message :=
  { mtype := "chat", text := "yes", role := "contact", conversation := "c2",
    user := "u1", meta := none }

def listenerC2 : ReplyListener :=
  { id := 1, chatId := "c2", messageId := "m1", callback := CbRef.fn 7 }

def stC2 : BotState :=
  { auth := some { user := "ubot", organization := "obot", iat := 0, exp := 0 },
    preloadOrganizations := false, onlyFirstMatch := false,
    conversations := [("c2", convC2)], organizations := [], registeredCallbacks := [],
    textRegexpCallbacks := [], replyListenerId := 1, replyListeners := [listenerC2] }

/-- C2 counterexample: a qualifying message from a conversation with the
awaiting-answer marker set fires the registered listener's handler, but the
state returned by the dispatch run still contains that listener: the engine
does not remove fired listeners from the listener list (removal happens only
when a handler itself calls removeReplyListener, as the ask wrapper does). -/
theorem spec_C2_cex :
    handleMessage stC2 "message.create.contact.chat" msgC2 =
      HMResult.ok [Ev.replyFired 1 7 msgC2] stC2
    ∧ stC2.replyListeners = [listenerC2] :=
  ⟨rfl, rfl⟩

/-- C2 (amended): on a qualifying inbound message from a conversation whose
awaiting-answer marker is set, every ReplyListener registered for that
conversation (not just the most recent) has its handler invoked with the
message, in registration order; but no listener is removed by the dispatch
engine: the bot state, including the listener list, is returned unchanged. -/
theorem spec_C2_amended (st : BotState) (ty : String) (message : Message)
    (conv : Conversation) (a : Auth)
    (hq : qualifies ty message = true)
    (hne : (message.conversation == "") = false)
    (hcv : assocGet st.conversations message.conversation = some conv)
    (ha : st.auth = some a)
    (hmark : truthy (ctxGet conv ("_asked" ++ a.user)) = true)
    (hres : (st.replyListeners.all fun l => !(l.chatId == message.conversation)
        || (resolveCb st.registeredCallbacks l.callback).isSome) = true)
    (hsome : (st.replyListeners.any fun l => l.chatId == message.conversation) = true) :
    handleMessage st ty message =
      HMResult.ok (runTriggers st.onlyFirstMatch message st.textRegexpCallbacks
        ++ (st.replyListeners.filter (fun l => l.chatId == message.conversation)).map
             (fun l => Ev.replyFired l.id ((resolveCb st.registeredCallbacks l.callback).getD 0)
               message)) st := by
  simpa [replyFiredEvents] using
    handleMessage_reply_fires st ty message conv a hq hne hcv ha hmark hres hsome

/-- C2 witness: the amended theorem applied to a concrete state with one
listener for the conversation and the marker set. -/
theorem spec_C2_witness :
    truthy (ctxGet convC2 ("_asked" ++ "ubot")) = true
    ∧ handleMessage stC2 "message.create.contact.chat" msgC2 =
        HMResult.ok (runTriggers stC2.onlyFirstMatch msgC2 stC2.textRegexpCallbacks
          ++ (stC2.replyListeners.filter (fun l => l.chatId == msgC2.conversation)).map
               (fun l => Ev.replyFired l.id
                 ((resolveCb stC2.registeredCallbacks l.callback).getD 0) msgC2)) stC2 :=
  ⟨by decide,
    spec_C2_amended stC2 "message.create.contact.chat" msgC2 convC2
      { user := "ubot", organization := "obot", iat := 0, exp := 0 }
      (by decide) (by decide) (by decide) rfl (by decide) (by decide) (by decide)⟩

/-- C4: for every payload without an event field, ingested with no signature
or with a matching one, ingest emits exactly the malformed-payload error and
performs no further dispatch: both caches are unchanged and no _handleEvent
call (hence no middleware run and no other emission) happens. -/
theorem spec_C4 (st : BotState) (fetchOrg : Except String Org)
    (getSig : Payload → String) (payload : Payload) (sig : Option String)
    (hev : payload.event = none)
    (hsig : sig = none ∨ ∃ s, sig = some s ∧ getSig payload = s) :
    ingest st fetchOrg getSig payload sig =
      { trace := [Ev.errorEmitted "Invalid payload, missing event"],
        conversations := st.conversations, organizations := st.organizations,
        dispatched := [] } := by
  rcases hsig with h | ⟨s, hs, hsg⟩
  · subst h
    simp [ingest, ingestValidated, hev]
  · subst hs
    simp [ingest, hsg, ingestValidated, hev]

def payloadC4 : Payload := { event := none, data := none, activity := false }

def stC4 : BotState :=
  { auth := none, preloadOrganizations := false, onlyFirstMatch := false,
    conversations := [], organizations := [], registeredCallbacks := [],
    textRegexpCallbacks := [], replyListenerId := 0, replyListeners := [] }

/-- C4 witness: the theorem applied to a concrete event-less payload without a
signature. -/
theorem spec_C4_witness :
    payloadC4.event = none
    ∧ ingest stC4 (Except.error "unused") (fun _ => "sig") payloadC4 none =
      { trace := [Ev.errorEmitted "Invalid payload, missing event"],
        conversations := stC4.conversations, organizations := stC4.organizations,
        dispatched := [] } :=
  ⟨by decide,
    spec_C4 stC4 (Except.error "unused") (fun _ => "sig") payloadC4 none rfl (Or.inl rfl)⟩

/-- C5: whenever a signature is supplied and differs from the computed HMAC of
the serialized payload, ingest emits the integrity error and performs no
dispatch and no state change, regardless of the payload's validity. -/
theorem spec_C5 (st : BotState) (fetchOrg : Except String Org)
    (getSig : Payload → String) (payload : Payload) (sig : String)
    (h : (getSig payload == sig) = false) :
    ingest st fetchOrg getSig payload (some sig) =
      { trace := [Ev.errorEmitted "Message integrity check failed"],
        conversations := st.conversations, organizations := st.organizations,
        dispatched := [] } := by
  simp [ingest, h]

def convC5 : Conversation := { id := "c1", organization := "o1", meta := none, fields := [] }

def payloadC5 : Payload :=
  { event := some "message.create.contact.chat",
    data := some { conversation := some convC5, message := none },
    activity := false }

def stC5 : BotState :=
  { auth := none, preloadOrganizations := false, onlyFirstMatch := false,
    conversations := [], organizations := [], registeredCallbacks := [],
    textRegexpCallbacks := [], replyListenerId := 0, replyListeners := [] }

/-- C5 witness: the theorem applied to an otherwise valid message payload with
a signature that does not match the computed one. -/
theorem spec_C5_witness :
    ((fun (_ : Payload) => "computed") payloadC5 == "supplied") = false
    ∧ ingest stC5 (Except.error "unused") (fun _ => "computed") payloadC5 (some "supplied") =
      { trace := [Ev.errorEmitted "Message integrity check failed"],
        conversations := stC5.conversations, organizations := stC5.organizations,
        dispatched := [] } :=
  ⟨by decide,
    spec_C5 stC5 (Except.error "unused") (fun _ => "computed") payloadC5 "supplied" (by decide)⟩

/-- C6: for two text triggers registered in order [A, B] that both structurally
match the text of a qualifying message, dispatch with stop-after-first-match
disabled fires both handlers in registration order before the generic
emissions, and with it enabled fires only A's handler. -/
theorem spec_C6 (st1 st2 : BotState) (ty : String) (message : Message)
    (conv : Conversation) (a : Auth) (A B : TextTrigger) (emits1 emits2 : List Ev)
    (hA : patternMatches A.pattern message.text = true)
    (hB : patternMatches B.pattern message.text = true)
    (h1of : st1.onlyFirstMatch = false) (h1tr : st1.textRegexpCallbacks = [A, B])
    (h2of : st2.onlyFirstMatch = true) (h2tr : st2.textRegexpCallbacks = [A, B])
    (hq : qualifies ty message = true)
    (hne : (message.conversation == "") = false)
    (h1cv : assocGet st1.conversations message.conversation = some conv)
    (h2cv : assocGet st2.conversations message.conversation = some conv)
    (h1a : st1.auth = some a) (h2a : st2.auth = some a)
    (hmark : truthy (ctxGet conv ("_asked" ++ a.user)) = false)
    (h1e : emitPhase st1.auth ty message = Except.ok emits1)
    (h2e : emitPhase st2.auth ty message = Except.ok emits2) :
    handleMessage st1 ty message =
      HMResult.ok (Ev.triggerFired A.tid message :: Ev.triggerFired B.tid message :: emits1)
        st1
    ∧ handleMessage st2 ty message =
      HMResult.ok (Ev.triggerFired A.tid message :: emits2) st2 := by
  constructor
  · rw [handleMessage_no_reply st1 ty message conv a emits1 hq hne h1cv h1a hmark h1e,
      h1of, h1tr]
    simp [runTriggers, hA, hB]
  · rw [handleMessage_no_reply st2 ty message conv a emits2 hq hne h2cv h2a hmark h2e,
      h2of, h2tr]
    simp [runTriggers, hA, hB]

def convC6 : Conversation := { id := "c6", organization := "o6", meta := some [], fields := [] }

def msgC6 : Message :=
  { mtype := "chat", text := "hi", role := "contact", conversation := "c6",
    user := "u1", meta := none }

def trigAC6 : TextTrigger := { tid := 1, pattern := Pattern.lit "hi" }

def trigBC6 : TextTrigger := { tid := 2, pattern := Pattern.lit "HI" }

def st1C6 : BotState :=
  { auth := some { user := "ubot", organization := "obot", iat := 0, exp := 0 },
    preloadOrganizations := false, onlyFirstMatch := false,
    conversations := [("c6", convC6)], organizations := [], registeredCallbacks := [],
    textRegexpCallbacks := [trigAC6, trigBC6], replyListenerId := 0, replyListeners := [] }

def st2C6 : BotState :=
  { auth := some { user := "ubot", organization := "obot", iat := 0, exp := 0 },
    preloadOrganizations := false, onlyFirstMatch := true,
    conversations := [("c6", convC6)], organizations := [], registeredCallbacks := [],
    textRegexpCallbacks := [trigAC6, trigBC6], replyListenerId := 0, replyListeners := [] }

def emitsC6 : List Ev :=
  [Ev.emit "message", Ev.emit "message.create.contact.chat",
   Ev.emit "message.create.contact.chat.contact"]

/-- C6 witness: the theorem applied to two concrete triggers that both match
the text "hi" case-insensitively, under both stop-after-first-match modes. -/
theorem spec_C6_witness :
    patternMatches trigAC6.pattern msgC6.text = true
    ∧ patternMatches trigBC6.pattern msgC6.text = true
    ∧ handleMessage st1C6 "message.create.contact.chat" msgC6 =
        HMResult.ok (Ev.triggerFired 1 msgC6 :: Ev.triggerFired 2 msgC6 :: emitsC6) st1C6
    ∧ handleMessage st2C6 "message.create.contact.chat" msgC6 =
        HMResult.ok (Ev.triggerFired 1 msgC6 :: emitsC6) st2C6 :=
  ⟨by decide, by decide,
    (spec_C6 st1C6 st2C6 "message.create.contact.chat" msgC6 convC6
        { user := "ubot", organization := "obot", iat := 0, exp := 0 }
        trigAC6 trigBC6 emitsC6 emitsC6 (by decide) (by decide) rfl rfl rfl rfl
        (by decide) (by decide) (by decide) (by decide) rfl rfl (by decide) rfl rfl).1,
    (spec_C6 st1C6 st2C6 "message.create.contact.chat" msgC6 convC6
        { user := "ubot", organization := "obot", iat := 0, exp := 0 }
        trigAC6 trigBC6 emitsC6 emitsC6 (by decide) (by decide) rfl rfl rfl rfl
        (by decide) (by decide) (by decide) (by decide) rfl rfl (by decide) rfl rfl).2⟩

/-- C7: for a valid message payload ingested while organization preloading is
enabled and the organization is not yet cached: a successful fetch caches the
organization and dispatch of the event proceeds; a failed fetch emits the
upstream error and dispatch never happens (the conversation snapshot is cached
in both cases, before the fetch). -/
theorem spec_C7 (st : BotState) (getSig : Payload → String) (payload : Payload)
    (d : PayloadData) (conv : Conversation) (ev : String)
    (hpre : st.preloadOrganizations = true)
    (hev : payload.event = some ev)
    (hm : strStartsWith ev "message" = true)
    (hne : (ev == "") = false)
    (hd : payload.data = some d)
    (hc : d.conversation = some conv)
    (hid : (conv.id == "") = false)
    (hnc : assocGet st.organizations conv.organization = none) :
    (∀ org, ingest st (Except.ok org) getSig payload none =
      { trace := [], conversations := assocSet st.conversations conv.id conv,
        organizations := assocSet st.organizations org.id org,
        dispatched := [(ev, payload)] })
    ∧ (∀ e, ingest st (Except.error e) getSig payload none =
      { trace := [Ev.errorEmitted
          ("Could not load organization " ++ conv.organization ++ ": " ++ e)],
        conversations := assocSet st.conversations conv.id conv,
        organizations := st.organizations, dispatched := [] }) := by
  constructor <;> intro x <;>
    simp [ingest, ingestValidated, hev, hne, hm, hd, hc, hid, hnc, hpre]

def convC7 : Conversation := { id := "c7", organization := "o7", meta := none, fields := [] }

def payloadC7 : Payload :=
  { event := some "message.create.contact.chat",
    data := some { conversation := some convC7, message := none },
    activity := false }

def stC7 : BotState :=
  { auth := none, preloadOrganizations := true, onlyFirstMatch := false,
    conversations := [], organizations := [], registeredCallbacks := [],
    textRegexpCallbacks := [], replyListenerId := 0, replyListeners := [] }

/-- C7 witness: the theorem applied to a concrete uncached organization, once
with a successful fetch and once with a failing one. -/
theorem spec_C7_witness :
    stC7.preloadOrganizations = true
    ∧ assocGet stC7.organizations convC7.organization = none
    ∧ ingest stC7 (Except.ok { id := "o7" }) (fun _ => "sig") payloadC7 none =
      { trace := [],
        conversations := assocSet stC7.conversations convC7.id convC7,
        organizations := assocSet stC7.organizations "o7" { id := "o7" },
        dispatched := [("message.create.contact.chat", payloadC7)] }
    ∧ ingest stC7 (Except.error "boom") (fun _ => "sig") payloadC7 none =
      { trace := [Ev.errorEmitted
          ("Could not load organization " ++ convC7.organization ++ ": " ++ "boom")],
        conversations := assocSet stC7.conversations convC7.id convC7,
        organizations := stC7.organizations, dispatched := [] } :=
  ⟨rfl, rfl,
    (spec_C7 stC7 (fun _ => "sig") payloadC7
        { conversation := some convC7, message := none } convC7
        "message.create.contact.chat" rfl rfl (by decide) (by decide) rfl rfl
        (by decide) rfl).1 { id := "o7" },
    (spec_C7 stC7 (fun _ => "sig") payloadC7
        { conversation := some convC7, message := none } convC7
        "message.create.contact.chat" rfl rfl (by decide) (by decide) rfl rfl
        (by decide) rfl).2 "boom"⟩

def msgC8 : Message :=
  { mtype := "chat", text := "hey", role := "contact", conversation := "cx",
    user := "u1", meta := none }

def stC8 : BotState :=
  { auth := some { user := "ubot", organization := "obot", iat := 0, exp := 0 },
    preloadOrganizations := false, onlyFirstMatch := false,
    conversations := [], organizations := [], registeredCallbacks := [],
    textRegexpCallbacks := [], replyListenerId := 0, replyListeners := [] }

/-- C8 counterexample: for a qualifying text message whose conversation is not
cached, building the Actions Context does emit the error and return the empty
object, but dispatch then aborts with an uncaught type error (ctx.get is not a
function on the empty object) instead of continuing: the trace ends at the
error emission, with no message emission at all. -/
theorem spec_C8_cex :
    handleMessage stC8 "message.create.contact.chat" msgC8 =
      HMResult.crash [Ev.errorEmitted "missing conv cx"] := rfl

/-- C8 (amended): for a conversation id unknown to the cache, building the
Actions Context emits an error signal and returns an empty object; dispatch of
the message then continues only for messages that do not enter the text-trigger
and reply branch, while for qualifying text messages the engine throws on
reading the awaiting-answer marker from the empty context and dispatch aborts. -/
theorem spec_C8_amended (st : BotState) (ty : String) (message : Message)
    (hcv : assocGet st.conversations message.conversation = none) :
    getActionsObject st message.conversation =
      ([Ev.errorEmitted ("missing conv " ++ message.conversation)], ActionsCtx.empty)
    ∧ (qualifies ty message = false →
        ∀ emits, emitPhase st.auth ty message = Except.ok emits →
          handleMessage st ty message =
            HMResult.ok (Ev.errorEmitted ("missing conv " ++ message.conversation) :: emits)
              st)
    ∧ (qualifies ty message = true →
        handleMessage st ty message =
          HMResult.crash (Ev.errorEmitted ("missing conv " ++ message.conversation) ::
            runTriggers st.onlyFirstMatch message st.textRegexpCallbacks)) := by
  refine ⟨getActionsObject_missing st message.conversation hcv, ?_, ?_⟩
  · intro hq emits hemit
    rw [handleMessage_not_qualifying st ty message emits hq hemit,
      getActionsObject_missing st message.conversation hcv]
    simp
  · intro hq
    exact handleMessage_unknown_conv_crash st ty message hq hcv

def msgC8n : Message :=
  { mtype := "command", text := "hello", role := "agent", conversation := "cx",
    user := "u1", meta := none }

/-- C8 witness: the amended theorem applied to a concrete unknown conversation
and a non-qualifying command message, for which dispatch does continue after
the error emission. -/
theorem spec_C8_witness :
    assocGet stC8.conversations msgC8n.conversation = none
    ∧ qualifies "message.create.agent.command" msgC8n = false
    ∧ handleMessage stC8 "message.create.agent.command" msgC8n =
        HMResult.ok (Ev.errorEmitted ("missing conv " ++ msgC8n.conversation) ::
          [Ev.emit "message", Ev.emit "message.create.agent.command",
           Ev.emit "message.create.agent.command.agent"]) stC8 :=
  ⟨by decide, by decide,
    (spec_C8_amended stC8 "message.create.agent.command" msgC8n (by decide)).2.1
      (by decide) _ rfl⟩

def orgC9 : Org := { id := "o1" }

def convC9 : Conversation := { id := "c1", organization := "o1", meta := none, fields := [] }

def stC9 : BotState :=
  { auth := none, preloadOrganizations := false, onlyFirstMatch := false,
    conversations := [("c1", convC9)], organizations := [("o1", orgC9)],
    registeredCallbacks := [], textRegexpCallbacks := [],
    replyListenerId := 0, replyListeners := [] }

/-- C9 evaluation at the failing input of the organization-resolution bug:
conversation c1 is cached with organization reference o1 and the organization
o1 is present in the organization cache, yet the Actions Context's
organization field is the raw embedded reference, not the cached Organization:
the code indexes the organization cache with the cached conversation object
itself (property key [object Object]) instead of its organization id, so the
lookup can never hit; the spec-modelled resolution returns the cached
Organization as the claim states. -/
theorem spec_C9_bug :
    assocGet stC9.organizations convC9.organization = some orgC9
    ∧ orgFieldOf stC9 convC9 = JOrg.ref "o1"
    ∧ orgFieldSpec stC9 convC9 = JOrg.cached orgC9
    ∧ getActionsObject stC9 "c1" = ([], ActionsCtx.full convC9 (JOrg.ref "o1")) := by
  refine ⟨by decide, by decide, by decide, by decide⟩

/-- C10: without a token, or with a token the decoder does not recognise, the
auth identity is undefined; any message-shaped payload carrying a message then
crashes the default ignore-self middleware on bot.auth.user, and any
qualifying text message crashes _handleMessage on this.auth.user, instead of
dispatching or signalling an error event: dispatch is only safe under the
precondition that a decodable token was supplied. -/
theorem spec_C10 (decode : String → Option DecodedToken) (tok : String)
    (hdec : decode tok = none)
    (bot : BotState) (ha : bot.auth = none)
    (payload : Payload) (ev : String) (d : PayloadData) (msg : Message)
    (hev : payload.event = some ev) (hm : strStartsWith ev "message" = true)
    (hne : (ev == "") = false)
    (hd : payload.data = some d) (hmsg : d.message = some msg)
    (ty : String) (message : Message) (conv : Conversation)
    (hq : qualifies ty message = true)
    (hcne : (message.conversation == "") = false)
    (hcv : assocGet bot.conversations message.conversation = some conv) :
    mkAuth none decode = none
    ∧ mkAuth (some tok) decode = none
    ∧ ignoreSelfMiddleware bot payload = MWOutcome.crash
    ∧ handleMessage bot ty message =
        HMResult.crash (runTriggers bot.onlyFirstMatch message bot.textRegexpCallbacks) := by
  refine ⟨rfl, ?_, ?_, handleMessage_no_auth_crash bot ty message conv hq hcne hcv ha⟩
  · simp [mkAuth, hdec]
  · simp [ignoreSelfMiddleware, hev, hne, hm, hd, hmsg, ha]

def convC10 : Conversation := { id := "c1", organization := "o1", meta := some [], fields := [] }

def msgC10 : Message :=
  { mtype := "chat", text := "hi", role := "contact", conversation := "c1",
    user := "u1", meta := none }

def stC10 : BotState :=
  { auth := none, preloadOrganizations := false, onlyFirstMatch := false,
    conversations := [("c1", convC10)], organizations := [], registeredCallbacks := [],
    textRegexpCallbacks := [], replyListenerId := 0, replyListeners := [] }

def payloadC10 : Payload :=
  { event := some "message.create.contact.chat",
    data := some { conversation := some convC10, message := some msgC10 },
    activity := false }

/-- C10 witness: the theorem applied to a bot built without a decodable token
and a concrete qualifying message payload. -/
theorem spec_C10_witness :
    stC10.auth = none
    ∧ mkAuth (some "garbage") (fun _ => none) = none
    ∧ ignoreSelfMiddleware stC10 payloadC10 = MWOutcome.crash
    ∧ handleMessage stC10 "message.create.contact.chat" msgC10 =
        HMResult.crash (runTriggers stC10.onlyFirstMatch msgC10 stC10.textRegexpCallbacks) :=
  ⟨rfl,
    (spec_C10 (fun _ => none) "garbage" rfl stC10 rfl payloadC10
        "message.create.contact.chat" { conversation := some convC10, message := some msgC10 }
        msgC10 rfl (by decide) (by decide) rfl rfl
        "message.create.contact.chat" msgC10 convC10 (by decide) (by decide) (by decide)).2.1,
    (spec_C10 (fun _ => none) "garbage" rfl stC10 rfl payloadC10
        "message.create.contact.chat" { conversation := some convC10, message := some msgC10 }
        msgC10 rfl (by decide) (by decide) rfl rfl
        "message.create.contact.chat" msgC10 convC10 (by decide) (by decide) (by decide)).2.2.1,
    (spec_C10 (fun _ => none) "garbage" rfl stC10 rfl payloadC10
        "message.create.contact.chat" { conversation := some convC10, message := some msgC10 }
        msgC10 rfl (by decide) (by decide) rfl rfl
        "message.create.contact.chat" msgC10 convC10 (by decide) (by decide) (by decide)).2.2.2⟩

end ChipChat
